import Mathlib

/- Shallow embedding of the MSS-Agent validation core:
   DataValidator.validate_spreadsheet (src/src/agents/data_validator.py) and
   ValidationWorkflow.run / ValidationWorkflow.run_all_sheets
   (src/src/workflows/validation_workflow.py). -/

/-- Python str.lower(), computed on the character list. -/
def strLower (s : String) : String :=
  String.mk (s.data.map Char.toLower)

/-- The whitespace characters stripped by Python str.strip(). -/
def isSpaceChar (c : Char) : Bool :=
  c == ' ' || c == '\t' || c == '\n' || c == '\r'

/-- Python str.strip(), computed on the character list. -/
def strTrim (s : String) : String :=
  String.mk ((((s.data.dropWhile isSpaceChar).reverse).dropWhile isSpaceChar).reverse)

/-- Python sep.join, computed recursively. -/
def strIntercalate (sep : String) : List String → String
  | [] => ""
  | [x] => x
  | x :: xs => x ++ sep ++ strIntercalate sep xs

/-- The needle occurs somewhere in the haystack. -/
def subOccurs (needle : List Char) : List Char → Bool
  | [] => needle.isEmpty
  | c :: t => needle.isPrefixOf (c :: t) || subOccurs needle t

/-- Substring test, Python `sub in s`. -/
def containsSub (s sub : String) : Bool :=
  subOccurs sub.data s.data

/-- A spreadsheet cell value: null (None/NaN), a number, or text. -/
inductive Value where
  | vnull : Value
  | vnum : Int → Value
  | vstr : String → Value
deriving DecidableEq

/-- Python str(value) rendering as used in detail messages. -/
def Value.toStr : Value → String
  | .vnull => "None"
  | .vnum n => toString n
  | .vstr s => s

/-- pd.isnull(value). -/
def Value.isNull : Value → Bool
  | .vnull => true
  | _ => false

/-- The missing test: pd.isnull(value) or (isinstance(value, str) and value.strip() == ""). -/
def Value.isMissing : Value → Bool
  | .vnull => true
  | .vstr s => strTrim s == ""
  | .vnum _ => false

/-- Python truthiness of a cell value (if frequency_value: ...). -/
def Value.truthy : Value → Bool
  | .vnull => false
  | .vnum n => n != 0
  | .vstr s => s != ""

/-- isinstance(value, (int, float)). -/
def Value.isNumeric : Value → Bool
  | .vnum _ => true
  | _ => false

/-- Models Python float(str(value)) succeeding on a text value: an optional
sign followed by digits with at most one decimal point (the literal forms
occurring in this data; exponent forms are not used by it). -/
def isFloatLit (s : String) : Bool :=
  let cs := (strTrim s).data
  let cs := match cs with
    | '-' :: rest => rest
    | '+' :: rest => rest
    | _ => cs
  cs.any (fun c => c.isDigit) &&
    cs.all (fun c => c.isDigit || c == '.') &&
    (cs.filter (fun c => c == '.')).length ≤ 1

/-- float(str(value)) succeeds. -/
def floatParses : Value → Bool
  | .vnull => false
  | .vnum _ => true
  | .vstr s => isFloatLit s

/-- The configuration read by DataValidator: rank_threshold from
validation rules and the skip_columns list. -/
structure RuleSet where
  rank_threshold : Int
  skip_columns : List String
deriving DecidableEq

/-- The frequency keywords hard-coded in validate_spreadsheet:
['quarterly', 'half-yearly', 'half_yearly']. -/
def freqSkipKeywords : List String := ["quarterly", "half-yearly", "half_yearly"]

/-- One row: the per-column mapping produced by df.iterrows(). -/
abbrev Row := List (String × Value)

/-- row[col] when col is in row.index. -/
def lookupCol (row : Row) (c : String) : Option Value :=
  (row.find? fun p => p.fst == c).map Prod.snd

/-- validation_columns: columns whose name contains no skip_columns entry,
case-insensitive. -/
def validationColumns (cfg : RuleSet) (cols : List String) : List String :=
  cols.filter fun col =>
    ! cfg.skip_columns.any fun sk => containsSub (strLower col) (strLower sk)

/-- percentage_columns: validated columns whose name contains "%" or "percent". -/
def percentageColumns (vcols : List String) : List String :=
  vcols.filter fun col => containsSub col "%" || containsSub (strLower col) "percent"

/-- rank_columns: validated columns whose name contains "rank". -/
def rankColumns (vcols : List String) : List String :=
  vcols.filter fun col => containsSub (strLower col) "rank"

/-- freq_col: the first column whose name contains "frequency". -/
def findFreqCol (cols : List String) : Option String :=
  cols.find? fun col => containsSub (strLower col) "frequency"

/-- The invalid-value message for a rank violation. -/
def rankFinding (col : String) (v : Int) (thr : Int) : String :=
  col ++ ": " ++ toString v ++ " exceeds rank threshold (" ++ toString thr ++ ")"

/-- The invalid-value message for a non-numeric Outcome Number. -/
def outcomeFinding (col : String) (v : Value) : String :=
  col ++ ": \x27" ++ v.toStr ++ "\x27 is not a valid number"

/-- The per-column if/elif chain of validate_spreadsheet, returning the
contributions to (missing_values, invalid_values) for one cell. -/
def cellFindings (percCols rankCols : List String) (thr : Int)
    (col : String) (v : Value) : List String × List String :=
  if v.isMissing then ([col], [])
  else if percCols.contains col then ([], [])
  else if rankCols.contains col && v.isNumeric then
    match v with
    | .vnum n => if thr < n then ([], [rankFinding col n thr]) else ([], [])
    | _ => ([], [])
  else if containsSub (strLower col) "outcome number" && ! v.isNull then
    if floatParses v then ([], []) else ([], [outcomeFinding col v])
  else ([], [])

/-- The loop `for col in validation_columns`, accumulating
(missing_values, invalid_values) in column order. -/
def rowFindings (percCols rankCols : List String) (thr : Int)
    (vcols : List String) (row : Row) : List String × List String :=
  match vcols with
  | [] => ([], [])
  | col :: rest =>
    let head := match lookupCol row col with
      | some v => cellFindings percCols rankCols thr col v
      | none => ([], [])
    let tail := rowFindings percCols rankCols thr rest row
    (head.fst ++ tail.fst, head.snd ++ tail.snd)

/-- The frequency-based skip test: the frequency value is truthy and its
str().lower() is one of the hard-coded keywords. -/
def rowIsFreqSkipped (freqCol : Option String) (row : Row) : Bool :=
  match freqCol.bind (lookupCol row) with
  | some v => v.truthy && freqSkipKeywords.contains (strLower v.toStr)
  | none => false

/-- One entry of product_issue_results. The source stores `details` as the
"; "-joined string of the row_details list; we keep the list and join it
in RowResult.detailsStr. -/
structure RowResult where
  row_index : Nat
  status : String
  detailsList : List String
  missing_columns : List String
  invalid_values : List String
  frequency_info : Option Value
deriving DecidableEq

/-- The joined `details` field of the source. -/
def RowResult.detailsStr (r : RowResult) : String :=
  if r.detailsList.isEmpty then "All validations passed"
  else strIntercalate "; " r.detailsList

/-- The body of the per-row loop, minus the row index: status, row_details,
missing_values, invalid_values, frequency_info. -/
def evaluateRowCore (cfg : RuleSet) (freqCol : Option String)
    (vcols percCols rankCols : List String) (row : Row) :
    String × List String × List String × List String :=
  if rowIsFreqSkipped freqCol row then
    ("skipped",
     ["Skipped due to frequency: " ++
        (match freqCol.bind (lookupCol row) with
         | some v => v.toStr
         | none => "None")],
     [], [])
  else
    let f := rowFindings percCols rankCols cfg.rank_threshold vcols row
    let status :=
      if ! f.fst.isEmpty then "missing"
      else if ! f.snd.isEmpty then "invalid"
      else "valid"
    let dl :=
      (if ! f.fst.isEmpty then
        ["Missing values in: " ++ strIntercalate ", " f.fst]
       else []) ++ f.snd
    (status, dl, f.fst, f.snd)

/-- One iteration of `for idx, row in df.iterrows()`. -/
def evaluateRow (cfg : RuleSet) (freqCol : Option String)
    (vcols percCols rankCols : List String) (idx : Nat) (row : Row) : RowResult :=
  let c := evaluateRowCore cfg freqCol vcols percCols rankCols row
  { row_index := idx + 1
    status := c.fst
    detailsList := c.snd.fst
    missing_columns := c.snd.snd.fst
    invalid_values := c.snd.snd.snd
    frequency_info := freqCol.bind (lookupCol row) }

/-- A table (one sheet): the parsed column list and rows. -/
structure Table where
  columns : List String
  rows : List Row
deriving DecidableEq

/-- The row loop with its running index. -/
def validateRows (cfg : RuleSet) (freqCol : Option String)
    (vcols percCols rankCols : List String) : Nat → List Row → List RowResult
  | _, [] => []
  | i, r :: rs =>
    evaluateRow cfg freqCol vcols percCols rankCols i r ::
      validateRows cfg freqCol vcols percCols rankCols (i + 1) rs

/-- The summary dict of validate_spreadsheet. -/
structure Summary where
  total_rows : Nat
  valid_rows : Nat
  error_rows : Nat
  validation_rate : ℚ
  validation_columns : Nat
  skipped_columns : List String
  rank_threshold_used : Int
deriving DecidableEq

/-- The result dict of validate_spreadsheet (success path). -/
structure ValidationResult where
  is_valid : Bool
  errors : List RowResult
  warnings : List RowResult
  summary : Summary
  results : List RowResult
deriving DecidableEq

/-- DataValidator.validate_spreadsheet on one parsed table. -/
def validate_spreadsheet (cfg : RuleSet) (t : Table) : ValidationResult :=
  let vcols := validationColumns cfg t.columns
  let percCols := percentageColumns vcols
  let rankCols := rankColumns vcols
  let freqCol := findFreqCol t.columns
  let results := validateRows cfg freqCol vcols percCols rankCols 0 t.rows
  let total := t.rows.length
  let valid := (results.filter fun r => r.status == "valid").length
  { is_valid := results.all fun r => r.status == "valid"
    errors := results.filter fun r => r.status == "error" || r.status == "invalid"
    warnings := results.filter fun r => r.status == "missing"
    summary :=
      { total_rows := total
        valid_rows := valid
        error_rows := (results.filter fun r => r.status != "valid").length
        validation_rate := if total > 0 then (valid : ℚ) / (total : ℚ) * 100 else 0
        validation_columns := vcols.length
        skipped_columns := t.columns.filter fun c => ! vcols.contains c
        rank_threshold_used := cfg.rank_threshold }
    results := results }

/-- The current date fields read by the scheduler block. -/
structure Date where
  month : Int
  day : Int
deriving DecidableEq

/-- One product_schedule entry: schedule.get('frequency'),
schedule.get('deadline_day'), schedule.get('deadline_months', []),
schedule.get('deadline_month'). -/
structure Schedule where
  frequency : Option String
  deadline_day : Option Int
  deadline_months : List Int
  deadline_month : Option Int
deriving DecidableEq

/-- One iteration of the `for product, schedule in product_schedule.items()`
scheduler loop in run_all_sheets; int(None) raises a TypeError, modelled as
Except.error. -/
def schedStep (now : Date) (acc : Bool) (s : Schedule) : Except String Bool :=
  if s.frequency = some "monthly" then
    match s.deadline_day with
    | none => .error "TypeError: int() argument is None"
    | some d => .ok (acc || decide (now.day ≥ d - 7))
  else if s.frequency = some "bi-annual" then
    if s.deadline_months.contains now.month then
      match s.deadline_day with
      | none => .error "TypeError: int() argument is None"
      | some d => .ok (acc || decide (now.day ≥ d - 7))
    else .ok acc
  else if s.frequency = some "annual" then
    if s.deadline_month = some now.month then
      match s.deadline_day with
      | none => .error "TypeError: int() argument is None"
      | some d => .ok (acc || decide (now.day ≥ d - 28))
    else .ok acc
  else .ok acc

/-- The scheduler loop over the schedules in order, threading
should_send_periodic; a raised exception aborts the remaining iterations. -/
def schedFold (now : Date) : Bool → List Schedule → Except String Bool
  | acc, [] => .ok acc
  | acc, s :: rest =>
    match schedStep now acc s with
    | .error e => .error e
    | .ok acc2 => schedFold now acc2 rest

/-- The whole scheduler block: should_send_periodic starts False. -/
def isPeriodicTriggerDue (now : Date) (schedules : List Schedule) :
    Except String Bool :=
  schedFold now false schedules

/-- The spec-side due condition, written from the words of the spec for the
refinement claim about the scheduler: monthly is due when
now.day at least deadline_day - 7; bi-annual additionally requires the month
to be a deadline month; annual requires the deadline month and
now.day at least deadline_day - 28. -/
def specScheduleDue (now : Date) (s : Schedule) : Bool :=
  if s.frequency = some "monthly" then
    match s.deadline_day with
    | some d => decide (now.day ≥ d - 7)
    | none => false
  else if s.frequency = some "bi-annual" then
    match s.deadline_day with
    | some d => s.deadline_months.contains now.month && decide (now.day ≥ d - 7)
    | none => false
  else if s.frequency = some "annual" then
    match s.deadline_day with
    | some d => decide (s.deadline_month = some now.month) && decide (now.day ≥ d - 28)
    | none => false
  else false

/-- A call to the external notifier. -/
inductive NotifCall where
  | missingData : NotifCall
  | completion : NotifCall
deriving DecidableEq

/-- The notifier calls made by one ValidationWorkflow.run. Its per-product
frequency block reads validation_result['summary'].get('dataframe'), a key
validate_spreadsheet never writes, so df is always None, that block never
fires, and the fallback sends exactly one notification chosen by is_valid. -/
def runSheetNotifications (vr : ValidationResult) : List NotifCall :=
  if vr.is_valid then [.completion] else [.missingData]

/-- The per-sheet loop of run_all_sheets: each sheet is validated via run. -/
def sheetResults (cfg : RuleSet) (sheets : List (String × Table)) :
    List (String × ValidationResult) :=
  sheets.map fun p => (p.fst, validate_spreadsheet cfg p.snd)

/-- all_valid after the sheet loop of run_all_sheets. -/
def aggAllValid (cfg : RuleSet) (sheets : List (String × Table)) : Bool :=
  (sheetResults cfg sheets).all fun p => p.snd.is_valid

/-- all_errors after the sheet loop: for each sheet that is not valid, its
errors list is appended, each entry tagged with the sheet name. -/
def aggErrors (cfg : RuleSet) (sheets : List (String × Table)) :
    List (String × RowResult) :=
  ((sheetResults cfg sheets).map fun p =>
    if p.snd.is_valid then []
    else p.snd.errors.map fun e => (p.fst, e)).flatten

/-- The aggregated notification of run_all_sheets: missing-data when
`not all_valid or should_send_periodic`, completion otherwise, together with
the recorded notification_type. -/
def aggregateNotification (all_valid trigger : Bool) : NotifCall × String :=
  if ! all_valid || trigger then (.missingData, "missing_data_aggregated")
  else (.completion, "completion_aggregated")

/-- All notifier calls of one run_all_sheets, in order: the calls made inside
each per-sheet run, then (when the scheduler block did not raise) the single
aggregated call. -/
def runAllSheetsTrace (cfg : RuleSet) (sheets : List (String × Table))
    (schedules : List Schedule) (now : Date) : List NotifCall :=
  let perSheet := ((sheetResults cfg sheets).map
    fun p => runSheetNotifications p.snd).flatten
  match isPeriodicTriggerDue now schedules with
  | .error _ => perSheet
  | .ok trig =>
    perSheet ++ [(aggregateNotification (aggAllValid cfg sheets) trig).fst]

/-- The final workflow_status of run_all_sheets: an exception in the
scheduler block is caught by the catch-all and the run is marked failed. -/
def runAllSheetsStatus (cfg : RuleSet) (sheets : List (String × Table))
    (schedules : List Schedule) (now : Date) : String :=
  match isPeriodicTriggerDue now schedules with
  | .error _ => "failed"
  | .ok trig =>
    if ! aggAllValid cfg sheets || trig then "completed_with_issues"
    else "completed_success"

/-- The configuration used by the concrete examples: the default
rank_threshold 5 and default skip_columns of validate_spreadsheet. -/
def cfgEx : RuleSet :=
  { rank_threshold := 5
    skip_columns := ["q1", "q2", "q3", "q4", "h1", "h2", "quarterly",
                     "half_yearly", "half-yearly"] }

/-- A one-row sheet with no problems. -/
def tblValid : Table :=
  { columns := ["ID", "Name"]
    rows := [[("ID", .vnum 1), ("Name", .vstr "A")]] }

/-- A one-row sheet whose Name cell is null. -/
def tblMissing : Table :=
  { columns := ["ID", "Name"]
    rows := [[("ID", .vnum 1), ("Name", .vnull)]] }

/-- A one-row sheet with a rank value above the threshold. -/
def tblInvalid : Table :=
  { columns := ["Rank"]
    rows := [[("Rank", .vnum 7)]] }

/-- A sheet with no rows. -/
def tblEmpty : Table :=
  { columns := ["ID"]
    rows := [] }

/-- A one-row sheet whose frequency cell is a skip keyword. -/
def tblSkipped : Table :=
  { columns := ["Frequency", "Rank"]
    rows := [[("Frequency", .vstr "Quarterly"), ("Rank", .vnum 99)]] }

/-- A monthly schedule with deadline day 20. -/
def schedMonthly20 : Schedule :=
  { frequency := some "monthly", deadline_day := some 20
    deadline_months := [], deadline_month := none }

/-- A monthly schedule whose deadline_day is absent. -/
def schedNoDeadline : Schedule :=
  { frequency := some "monthly", deadline_day := none
    deadline_months := [], deadline_month := none }

/-- A schedule with an unrecognized frequency tag. -/
def schedWeekly : Schedule :=
  { frequency := some "weekly", deadline_day := some 10
    deadline_months := [], deadline_month := none }

/-- The 25th of July. -/
def dateJul25 : Date := { month := 7, day := 25 }

/- Helper lemmas about the embedding. -/

theorem evaluateRow_row_index (cfg : RuleSet) (fc : Option String)
    (vcols pc rc : List String) (i : Nat) (row : Row) :
    (evaluateRow cfg fc vcols pc rc i row).row_index = i + 1 := rfl

theorem validateRows_length (cfg : RuleSet) (fc : Option String)
    (vcols pc rc : List String) (i : Nat) (rs : List Row) :
    (validateRows cfg fc vcols pc rc i rs).length = rs.length := by
  induction rs generalizing i with
  | nil => rfl
  | cons r rs ih => simp [validateRows, ih]

theorem validateRows_map_row_index (cfg : RuleSet) (fc : Option String)
    (vcols pc rc : List String) (i : Nat) (rs : List Row) :
    ((validateRows cfg fc vcols pc rc i rs).map fun r => r.row_index) =
      List.range' (i + 1) rs.length := by
  induction rs generalizing i with
  | nil => rfl
  | cons r rs ih => simp [validateRows, List.range'_succ, ih, evaluateRow_row_index]

/-- The cell contribution to missing_values is [col] exactly when the value
fails the missing test. -/
theorem cellFindings_fst (pc rc : List String) (thr : Int)
    (col : String) (v : Value) :
    (cellFindings pc rc thr col v).fst = if v.isMissing then [col] else [] := by
  unfold cellFindings
  by_cases hm : v.isMissing
  · simp [hm]
  · simp only [hm, Bool.false_eq_true, if_false]
    split
    · rfl
    · split
      · split
        · split <;> rfl
        · rfl
      · split
        · split <;> rfl
        · rfl

/-- A cell value counts as present-and-missing at column c. -/
def missingAt (row : Row) (c : String) : Bool :=
  match lookupCol row c with
  | some v => v.isMissing
  | none => false

/-- missing_values collects exactly the validated columns whose present value
fails the missing test, in column order. -/
theorem rowFindings_fst (pc rc : List String) (thr : Int)
    (vcols : List String) (row : Row) :
    (rowFindings pc rc thr vcols row).fst = vcols.filter (missingAt row) := by
  induction vcols with
  | nil => rfl
  | cons col rest ih =>
    cases hl : lookupCol row col with
    | none =>
      have hm : missingAt row col = false := by simp [missingAt, hl]
      simp only [rowFindings, hl, ih]
      rw [List.filter_cons_of_neg (by simp [hm])]
      simp
    | some v =>
      have hm2 : missingAt row col = v.isMissing := by simp [missingAt, hl]
      simp only [rowFindings, hl, ih, cellFindings_fst]
      by_cases hm : v.isMissing
      · rw [List.filter_cons_of_pos (by simp [hm2, hm])]
        simp [hm]
      · rw [List.filter_cons_of_neg (by simp [hm2, hm])]
        simp [hm]

theorem validate_results_eq (cfg : RuleSet) (t : Table) :
    (validate_spreadsheet cfg t).results =
      validateRows cfg (findFreqCol t.columns) (validationColumns cfg t.columns)
        (percentageColumns (validationColumns cfg t.columns))
        (rankColumns (validationColumns cfg t.columns)) 0 t.rows := rfl

theorem validate_errors_eq (cfg : RuleSet) (t : Table) :
    (validate_spreadsheet cfg t).errors =
      (validate_spreadsheet cfg t).results.filter
        fun r => r.status == "error" || r.status == "invalid" := rfl

theorem validate_is_valid_eq (cfg : RuleSet) (t : Table) :
    (validate_spreadsheet cfg t).is_valid =
      ((validate_spreadsheet cfg t).results.all fun r => r.status == "valid") := rfl

theorem validate_errors_nil_of_valid (cfg : RuleSet) (t : Table)
    (h : (validate_spreadsheet cfg t).is_valid = true) :
    (validate_spreadsheet cfg t).errors = [] := by
  rw [validate_errors_eq]
  rw [validate_is_valid_eq] at h
  refine List.filter_eq_nil_iff.mpr ?_
  intro r hr
  have hv := List.all_eq_true.mp h r hr
  have hv2 : r.status = "valid" := by simpa using hv
  simp [hv2]

theorem evaluateRow_status_skipped (cfg : RuleSet) (fc : Option String)
    (vcols pc rc : List String) (i : Nat) (row : Row)
    (h : rowIsFreqSkipped fc row = true) :
    (evaluateRow cfg fc vcols pc rc i row).status = "skipped" := by
  simp [evaluateRow, evaluateRowCore, h]

theorem validateRows_all_skipped (cfg : RuleSet) (fc : Option String)
    (vcols pc rc : List String) (i : Nat) (rs : List Row)
    (h : ∀ row ∈ rs, rowIsFreqSkipped fc row = true) :
    ∀ r ∈ validateRows cfg fc vcols pc rc i rs, r.status = "skipped" := by
  induction rs generalizing i with
  | nil => intro r hr; cases hr
  | cons row rest ih =>
    intro r hr
    rcases List.mem_cons.mp hr with h1 | h2
    · rw [h1]
      exact evaluateRow_status_skipped cfg fc vcols pc rc i row
        (h row (List.mem_cons_self row rest))
    · exact ih (i + 1) (fun q hq => h q (List.mem_cons_of_mem row hq)) r h2

theorem aggAllValid_false_of_mem (cfg : RuleSet) (sheets : List (String × Table))
    (name : String) (t : Table) (hm : (name, t) ∈ sheets)
    (hv : (validate_spreadsheet cfg t).is_valid = false) :
    aggAllValid cfg sheets = false := by
  cases h : aggAllValid cfg sheets with
  | false => rfl
  | true =>
    unfold aggAllValid sheetResults at h
    have h2 := List.all_eq_true.mp h _
      (List.mem_map_of_mem (fun p => (p.fst, validate_spreadsheet cfg p.snd)) hm)
    rw [hv] at h2
    cases h2

theorem runAllSheetsTrace_getLast (cfg : RuleSet) (sheets : List (String × Table))
    (schedules : List Schedule) (now : Date) (trig : Bool)
    (h : isPeriodicTriggerDue now schedules = .ok trig) :
    (runAllSheetsTrace cfg sheets schedules now).getLast? =
      some (aggregateNotification (aggAllValid cfg sheets) trig).fst := by
  unfold runAllSheetsTrace
  rw [h]
  exact List.getLast?_concat _

/-- With a present deadline_day, one scheduler iteration never raises and
ORs the spec-side due condition into the accumulator. -/
theorem schedStep_some (now : Date) (acc : Bool) (s : Schedule) (d : Int)
    (hd : s.deadline_day = some d) :
    schedStep now acc s = .ok (acc || specScheduleDue now s) := by
  unfold schedStep specScheduleDue
  by_cases h1 : s.frequency = some "monthly"
  · simp [h1, hd]
  · by_cases h2 : s.frequency = some "bi-annual"
    · by_cases hm : now.month ∈ s.deadline_months <;>
        simp [h1, h2, hd, hm]
    · by_cases h3 : s.frequency = some "annual"
      · by_cases hm : s.deadline_month = some now.month <;>
          simp [h1, h2, h3, hd, hm]
      · simp [h1, h2, h3]

/-- With every deadline_day present, the scheduler loop never raises and
computes the OR of the spec-side due conditions over the schedules. -/
theorem schedFold_ok (now : Date) (l : List Schedule)
    (h : ∀ s ∈ l, s.deadline_day ≠ none) (acc : Bool) :
    schedFold now acc l = .ok (acc || l.any (specScheduleDue now)) := by
  induction l generalizing acc with
  | nil => simp [schedFold]
  | cons s rest ih =>
    have hd := h s (List.mem_cons_self s rest)
    rcases Option.ne_none_iff_exists'.mp hd with ⟨d, hd2⟩
    rw [show schedFold now acc (s :: rest) =
          (match schedStep now acc s with
           | .error e => .error e
           | .ok acc2 => schedFold now acc2 rest) from rfl,
        schedStep_some now acc s d hd2]
    rw [show (match (Except.ok (acc || specScheduleDue now s) :
          Except String Bool) with
           | .error e => .error e
           | .ok acc2 => schedFold now acc2 rest) =
          schedFold now (acc || specScheduleDue now s) rest from rfl]
    rw [ih (fun q hq => h q (List.mem_cons_of_mem s hq))]
    simp [Bool.or_assoc]

theorem isEmpty_false_of_ne_nil {α : Type} {l : List α} (h : l ≠ []) :
    l.isEmpty = false := by
  cases l with
  | nil => exact absurd rfl h
  | cons a as => rfl

theorem evaluateRow_status_not_skipped (cfg : RuleSet) (fc : Option String)
    (vcols pc rc : List String) (i : Nat) (row : Row)
    (hskip : rowIsFreqSkipped fc row = false) :
    (evaluateRow cfg fc vcols pc rc i row).status =
      (if ! (rowFindings pc rc cfg.rank_threshold vcols row).fst.isEmpty then
        "missing"
       else if ! (rowFindings pc rc cfg.rank_threshold vcols row).snd.isEmpty then
        "invalid"
       else "valid") := by
  simp [evaluateRow, evaluateRowCore, hskip]

theorem evaluateRow_invalid_values_not_skipped (cfg : RuleSet) (fc : Option String)
    (vcols pc rc : List String) (i : Nat) (row : Row)
    (hskip : rowIsFreqSkipped fc row = false) :
    (evaluateRow cfg fc vcols pc rc i row).invalid_values =
      (rowFindings pc rc cfg.rank_threshold vcols row).snd := by
  simp [evaluateRow, evaluateRowCore, hskip]

theorem evaluateRow_detailsList_not_skipped (cfg : RuleSet) (fc : Option String)
    (vcols pc rc : List String) (i : Nat) (row : Row)
    (hskip : rowIsFreqSkipped fc row = false) :
    (evaluateRow cfg fc vcols pc rc i row).detailsList =
      (if ! (rowFindings pc rc cfg.rank_threshold vcols row).fst.isEmpty then
        ["Missing values in: " ++
          strIntercalate ", " (rowFindings pc rc cfg.rank_threshold vcols row).fst]
       else []) ++ (rowFindings pc rc cfg.rank_threshold vcols row).snd := by
  simp [evaluateRow, evaluateRowCore, hskip]

theorem validate_error_rows_eq (cfg : RuleSet) (t : Table) :
    (validate_spreadsheet cfg t).summary.error_rows =
      ((validate_spreadsheet cfg t).results.filter
        fun r => r.status != "valid").length := rfl

/-- Claim C1: the claim says at most one notifier call occurs per
run_all_sheets; on a two-sheet input with both sheets valid and no
schedules, the code makes three notifier calls (one inside each per-sheet
run, plus the aggregated one), so the claim fails on the code while the
docstring and the comment of run_all_sheets promise a single aggregated
notification. -/
theorem C1_run_all_sheets_sends_multiple_notifications :
    runAllSheetsTrace cfgEx [("S1", tblValid), ("S2", tblValid)] [] dateJul25 =
      [NotifCall.completion, NotifCall.completion, NotifCall.completion] := by
  decide

/-- Claim C2, counterexample: a table whose single row has a missing value
gets a non-valid verdict (status missing), and a table whose single row is
frequency-skipped gets status skipped, yet the merged error list of the
multi-sheet run is empty in both cases, refuting the claim that every
non-valid verdict (including missing and skipped) is merged. -/
theorem C2_missing_and_skipped_verdicts_not_merged :
    ((validate_spreadsheet cfgEx tblMissing).results.map fun r => r.status) =
      ["missing"]
    ∧ aggErrors cfgEx [("S1", tblMissing)] = []
    ∧ ((validate_spreadsheet cfgEx tblSkipped).results.map fun r => r.status) =
        ["skipped"]
    ∧ aggErrors cfgEx [("S2", tblSkipped)] = [] := by
  refine ⟨by decide, by decide, by decide, by decide⟩

/-- Claim C3, counterexample: with every table valid and a due monthly
schedule, the dispatched aggregated notification is the missing-data one
(notification_type missing_data_aggregated), not a distinct periodic-due
outcome, refuting the claimed three-valued decision. -/
theorem C3_all_valid_due_schedule_sends_missing_data :
    aggAllValid cfgEx [("S1", tblValid)] = true
    ∧ isPeriodicTriggerDue dateJul25 [schedMonthly20] = .ok true
    ∧ runAllSheetsTrace cfgEx [("S1", tblValid)] [schedMonthly20] dateJul25 =
        [NotifCall.completion, NotifCall.missingData]
    ∧ aggregateNotification true true =
        (NotifCall.missingData, "missing_data_aggregated") := by
  refine ⟨by decide, rfl, by decide, by decide⟩

/-- Claim C4, counterexample: a monthly schedule with a missing deadline_day
raises a TypeError from int(None); the later due schedule is never
evaluated and the orchestrator catch-all marks the whole run failed,
refuting the claim that the scheduler never raises and treats a missing
deadline parameter as not due. -/
theorem C4_missing_deadline_day_raises :
    isPeriodicTriggerDue dateJul25 [schedNoDeadline, schedMonthly20] =
      .error "TypeError: int() argument is None"
    ∧ runAllSheetsStatus cfgEx [] [schedNoDeadline, schedMonthly20] dateJul25 =
        "failed" :=
  ⟨rfl, rfl⟩

/-- Claim C4, amended: an unrecognized frequency tag is treated as not due
and evaluation continues with the remaining schedules; but a monthly
schedule whose deadline_day is absent raises, aborting the evaluation of
the remaining schedules. -/
theorem C4_unknown_freq_not_due_missing_deadline_aborts
    (now : Date) (s : Schedule) (rest : List Schedule) :
    (s.frequency ≠ some "monthly" → s.frequency ≠ some "bi-annual" →
      s.frequency ≠ some "annual" →
      isPeriodicTriggerDue now (s :: rest) = isPeriodicTriggerDue now rest)
    ∧ (s.frequency = some "monthly" → s.deadline_day = none →
      isPeriodicTriggerDue now (s :: rest) =
        .error "TypeError: int() argument is None") := by
  constructor
  · intro h1 h2 h3
    have hstep : schedStep now false s = .ok false := by
      unfold schedStep
      simp [h1, h2, h3]
    show (match schedStep now false s with
          | .error e => (.error e : Except String Bool)
          | .ok acc2 => schedFold now acc2 rest) = isPeriodicTriggerDue now rest
    rw [hstep]
    rfl
  · intro h1 h2
    have hstep : schedStep now false s =
        .error "TypeError: int() argument is None" := by
      unfold schedStep
      simp [h1, h2]
    show (match schedStep now false s with
          | .error e => (.error e : Except String Bool)
          | .ok acc2 => schedFold now acc2 rest) =
        .error "TypeError: int() argument is None"
    rw [hstep]

theorem C4_unknown_freq_witness :
    isPeriodicTriggerDue dateJul25 [schedWeekly, schedMonthly20] =
      isPeriodicTriggerDue dateJul25 [schedMonthly20]
    ∧ isPeriodicTriggerDue dateJul25 [schedNoDeadline, schedMonthly20] =
        .error "TypeError: int() argument is None" :=
  ⟨(C4_unknown_freq_not_due_missing_deadline_aborts dateJul25 schedWeekly
      [schedMonthly20]).1 (by decide) (by decide) (by decide),
   (C4_unknown_freq_not_due_missing_deadline_aborts dateJul25 schedNoDeadline
      [schedMonthly20]).2 rfl rfl⟩

/-- Claim C5: with every schedule well-formed (deadline_day present), the
periodic trigger never raises and equals the logical OR over the schedules
of the spec-side due conditions: monthly due when day at least
deadline_day - 7; bi-annual additionally in a deadline month; annual in
the deadline month when day at least deadline_day - 28. -/
theorem C5_scheduler_matches_spec (now : Date) (schedules : List Schedule)
    (h : ∀ s ∈ schedules, s.deadline_day ≠ none) :
    isPeriodicTriggerDue now schedules =
      .ok (schedules.any (specScheduleDue now)) := by
  unfold isPeriodicTriggerDue
  rw [schedFold_ok now schedules h false]
  simp

theorem C5_scheduler_matches_spec_witness :
    isPeriodicTriggerDue dateJul25 [schedMonthly20, schedWeekly] =
      .ok ([schedMonthly20, schedWeekly].any (specScheduleDue dateJul25)) :=
  C5_scheduler_matches_spec dateJul25 [schedMonthly20, schedWeekly] (by decide)

/-- Claim C2, amended: the merged error list of a multi-sheet run contains
exactly the row verdicts with status error or invalid from every table
(missing verdicts go to the per-table warnings list and skipped verdicts
are not merged), each tagged with its sheet name, ordered by sheet
processing order and, within a sheet, by row index (the verdicts of a
sheet carry row indices 1..n in list order). -/
theorem all_map_helper {A B : Type} (l : List A) (f : A → B) (p : B → Bool) :
    (l.map f).all p = l.all fun a => p (f a) := by
  induction l with
  | nil => rfl
  | cons a t ih => simp [ih]

theorem C2_merged_errors_exactly_invalid_in_order (cfg : RuleSet)
    (sheets : List (String × Table)) :
    aggErrors cfg sheets =
      (sheets.map fun p =>
        ((validate_spreadsheet cfg p.snd).results.filter
            fun r => r.status == "error" || r.status == "invalid").map
          fun r => (p.fst, r)).flatten
    ∧ ∀ p ∈ sheets,
        ((validate_spreadsheet cfg p.snd).results.map fun r => r.row_index) =
          List.range' 1 p.snd.rows.length := by
  constructor
  · unfold aggErrors sheetResults
    rw [List.map_map]
    congr 1
    apply List.map_congr_left
    intro p _
    show (if (validate_spreadsheet cfg p.snd).is_valid then []
          else (validate_spreadsheet cfg p.snd).errors.map fun e => (p.fst, e)) =
        ((validate_spreadsheet cfg p.snd).results.filter
            fun r => r.status == "error" || r.status == "invalid").map
          fun r => (p.fst, r)
    by_cases hv : (validate_spreadsheet cfg p.snd).is_valid
    · rw [if_pos hv, ← validate_errors_eq,
        validate_errors_nil_of_valid cfg p.snd hv]
      simp
    · rw [if_neg hv, validate_errors_eq]
  · intro p _
    rw [validate_results_eq, validateRows_map_row_index]

theorem C2_merged_errors_witness :
    aggErrors cfgEx [("S1", tblInvalid)] =
      ([("S1", tblInvalid)].map fun p =>
        ((validate_spreadsheet cfgEx p.snd).results.filter
            fun r => r.status == "error" || r.status == "invalid").map
          fun r => (p.fst, r)).flatten
    ∧ ((validate_spreadsheet cfgEx tblInvalid).results.map fun r => r.row_index) =
        List.range' 1 tblInvalid.rows.length := by
  have h := C2_merged_errors_exactly_invalid_in_order cfgEx [("S1", tblInvalid)]
  exact ⟨h.1, h.2 ("S1", tblInvalid) (by simp)⟩

/-- Claim C3, amended: the aggregated notification decision is two-valued,
not three-valued: the missing-data notification is dispatched exactly when
some table is invalid or the periodic trigger is due (so a due schedule
with all tables valid produces the same missing-data notification, not a
distinct periodic-due one), and otherwise the completion notification is
dispatched; a run with an invalid table dispatches the missing-data
notification regardless of the trigger. -/
theorem C3_decision_two_valued (cfg : RuleSet) (sheets : List (String × Table))
    (schedules : List Schedule) (now : Date) (trig : Bool)
    (h : isPeriodicTriggerDue now schedules = .ok trig) :
    (runAllSheetsTrace cfg sheets schedules now).getLast? =
      some (if ! aggAllValid cfg sheets || trig then NotifCall.missingData
            else NotifCall.completion)
    ∧ aggAllValid cfg sheets =
        (sheets.all fun p =>
          (validate_spreadsheet cfg p.snd).results.all fun r =>
            r.status == "valid") := by
  constructor
  · rw [runAllSheetsTrace_getLast cfg sheets schedules now trig h]
    unfold aggregateNotification
    cases hb : (! aggAllValid cfg sheets || trig) <;> simp [hb]
  · unfold aggAllValid sheetResults
    rw [all_map_helper]
    rfl

theorem C3_decision_two_valued_witness :
    (runAllSheetsTrace cfgEx [("S1", tblValid)] [schedMonthly20]
        dateJul25).getLast? =
      some (if ! aggAllValid cfgEx [("S1", tblValid)] || true then
              NotifCall.missingData
            else NotifCall.completion)
    ∧ aggAllValid cfgEx [("S1", tblValid)] =
        ([("S1", tblValid)].all fun p =>
          (validate_spreadsheet cfgEx p.snd).results.all fun r =>
            r.status == "valid") :=
  C3_decision_two_valued cfgEx [("S1", tblValid)] [schedMonthly20] dateJul25
    true rfl

/-- Claim C6: for a validated column in the rank role (its name is in
rank_columns and not in percentage_columns) holding a numeric value v, the
cell check records the invalid finding
"col: v exceeds rank threshold (thr)" exactly when v is strictly above the
threshold (so the boundary v = thr records nothing); and a non-skipped row
with no missing values and no invalid findings gets the valid verdict. -/
theorem C6_rank_threshold_strict (pc rc : List String) (thr : Int)
    (col : String) (v : Int)
    (hr : rc.contains col = true) (hp : pc.contains col = false) :
    cellFindings pc rc thr col (.vnum v) =
      (if thr < v then ([], [rankFinding col v thr]) else ([], []))
    ∧ ∀ (cfg : RuleSet) (fc : Option String) (vcols : List String) (i : Nat)
        (row : Row),
        rowIsFreqSkipped fc row = false →
        rowFindings pc rc cfg.rank_threshold vcols row = ([], []) →
        (evaluateRow cfg fc vcols pc rc i row).status = "valid" := by
  constructor
  · unfold cellFindings
    have hrm : col ∈ rc := by simpa using hr
    have hpm : col ∉ pc := by simpa using hp
    simp [Value.isMissing, Value.isNumeric, hpm, hrm]
  · intro cfg fc vcols i row hskip hfind
    simp [evaluateRow, evaluateRowCore, hskip, hfind]

theorem C6_rank_threshold_strict_witness :
    cellFindings [] ["Rank"] 5 "Rank" (.vnum 7) =
      (if (5 : Int) < 7 then ([], [rankFinding "Rank" 7 5]) else ([], []))
    ∧ (evaluateRow cfgEx none ["Rank"] [] ["Rank"] 0
        [("Rank", Value.vnum 5)]).status = "valid" := by
  have h := C6_rank_threshold_strict [] ["Rank"] 5 "Rank" 7 (by decide) (by decide)
  exact ⟨h.1, h.2 cfgEx none ["Rank"] 0 [("Rank", Value.vnum 5)] rfl (by decide)⟩

/-- Claim C7: for a non-skipped row, if some validated column has a missing
value the verdict status is missing; with no missing value but a nonempty
invalid-findings list the status is invalid; with neither, valid. The
invalid findings are stored in invalid_values and appear in the details
list even when the status is missing. -/
theorem C7_verdict_precedence (cfg : RuleSet) (fc : Option String)
    (vcols pc rc : List String) (i : Nat) (row : Row)
    (hskip : rowIsFreqSkipped fc row = false) :
    ((∃ c ∈ vcols, missingAt row c = true) →
      (evaluateRow cfg fc vcols pc rc i row).status = "missing")
    ∧ ((∀ c ∈ vcols, missingAt row c = false) →
        (rowFindings pc rc cfg.rank_threshold vcols row).snd ≠ [] →
        (evaluateRow cfg fc vcols pc rc i row).status = "invalid")
    ∧ ((∀ c ∈ vcols, missingAt row c = false) →
        (rowFindings pc rc cfg.rank_threshold vcols row).snd = [] →
        (evaluateRow cfg fc vcols pc rc i row).status = "valid")
    ∧ (evaluateRow cfg fc vcols pc rc i row).invalid_values =
        (rowFindings pc rc cfg.rank_threshold vcols row).snd
    ∧ ∀ m ∈ (rowFindings pc rc cfg.rank_threshold vcols row).snd,
        m ∈ (evaluateRow cfg fc vcols pc rc i row).detailsList := by
  have hfst := rowFindings_fst pc rc cfg.rank_threshold vcols row
  have hstat := evaluateRow_status_not_skipped cfg fc vcols pc rc i row hskip
  refine ⟨?_, ?_, ?_, evaluateRow_invalid_values_not_skipped cfg fc vcols pc rc
    i row hskip, ?_⟩
  · rintro ⟨c, hc, hm⟩
    have hne : vcols.filter (missingAt row) ≠ [] := by
      intro h0
      exact (List.filter_eq_nil_iff.mp h0 c hc) hm
    rw [hstat, hfst, isEmpty_false_of_ne_nil hne]
    rfl
  · intro hnone hinv
    have hnil : vcols.filter (missingAt row) = [] :=
      List.filter_eq_nil_iff.mpr fun c hc => by rw [hnone c hc]; intro h0; cases h0
    rw [hstat, hfst, hnil, isEmpty_false_of_ne_nil hinv]
    rfl
  · intro hnone hinv
    have hnil : vcols.filter (missingAt row) = [] :=
      List.filter_eq_nil_iff.mpr fun c hc => by rw [hnone c hc]; intro h0; cases h0
    rw [hstat, hfst, hnil, hinv]
    rfl
  · intro m hm
    rw [evaluateRow_detailsList_not_skipped cfg fc vcols pc rc i row hskip]
    exact List.mem_append_right _ hm

theorem C7_verdict_precedence_witness :
    (evaluateRow cfgEx none ["Name", "Rank"] [] ["Rank"] 0
        [("Name", Value.vnull), ("Rank", Value.vnum 9)]).status = "missing"
    ∧ (evaluateRow cfgEx none ["Name", "Rank"] [] ["Rank"] 0
        [("Name", Value.vnull), ("Rank", Value.vnum 9)]).invalid_values =
      (rowFindings [] ["Rank"] cfgEx.rank_threshold ["Name", "Rank"]
        [("Name", Value.vnull), ("Rank", Value.vnum 9)]).snd := by
  have h := C7_verdict_precedence cfgEx none ["Name", "Rank"] [] ["Rank"] 0
    [("Name", Value.vnull), ("Rank", Value.vnum 9)] rfl
  exact ⟨h.1 ⟨"Name", by decide, by decide⟩, h.2.2.2.1⟩

/-- Claim C8: a row whose frequency-column value is a text value whose
lower-casing is one of the frequency-skip keywords gets the skipped verdict
with detail "Skipped due to frequency: value", and no other check runs:
its missing_columns and invalid_values are empty regardless of every other
column of the row. -/
theorem C8_frequency_skip (cfg : RuleSet) (fcName : String)
    (vcols pc rc : List String) (i : Nat) (row : Row) (s : String)
    (hv : lookupCol row fcName = some (.vstr s))
    (hk : freqSkipKeywords.contains (strLower s) = true) :
    (evaluateRow cfg (some fcName) vcols pc rc i row).status = "skipped"
    ∧ (evaluateRow cfg (some fcName) vcols pc rc i row).detailsList =
        ["Skipped due to frequency: " ++ s]
    ∧ (evaluateRow cfg (some fcName) vcols pc rc i row).missing_columns = []
    ∧ (evaluateRow cfg (some fcName) vcols pc rc i row).invalid_values = []
    ∧ (evaluateRow cfg (some fcName) vcols pc rc i row).row_index = i + 1 := by
  have hs : s ≠ "" := by
    intro h0
    rw [h0] at hk
    exact absurd hk (by decide)
  have hk2 : strLower s ∈ freqSkipKeywords := by simpa using hk
  have hskip : rowIsFreqSkipped (some fcName) row = true := by
    unfold rowIsFreqSkipped
    simp [hv, Value.truthy, Value.toStr, hk2, hs]
  refine ⟨?_, ?_, ?_, ?_, rfl⟩ <;>
    simp [evaluateRow, evaluateRowCore, hskip, hv, Value.toStr]

theorem C8_frequency_skip_witness :
    (evaluateRow cfgEx (some "Frequency") ["Frequency", "Rank"] [] ["Rank"] 0
        [("Frequency", Value.vstr "Quarterly"), ("Rank", Value.vnum 99)]).status =
      "skipped"
    ∧ (evaluateRow cfgEx (some "Frequency") ["Frequency", "Rank"] [] ["Rank"] 0
        [("Frequency", Value.vstr "Quarterly"),
          ("Rank", Value.vnum 99)]).invalid_values = [] := by
  have h := C8_frequency_skip cfgEx "Frequency" ["Frequency", "Rank"] [] ["Rank"]
    0 [("Frequency", Value.vstr "Quarterly"), ("Rank", Value.vnum 99)]
    "Quarterly" (by decide) (by decide)
  exact ⟨h.1, h.2.2.2.1⟩

/-- Claim C9: a table report is_valid is true exactly when every row verdict
has status valid; every skipped verdict is counted in error_rows; and a
nonempty table whose rows are all frequency-skipped is reported invalid, its
error_rows equals its row count, and any run containing it dispatches the
missing-data (issues) notification as its aggregated decision. -/
theorem C9_is_valid_iff_all_rows_valid (cfg : RuleSet) (t : Table) :
    ((validate_spreadsheet cfg t).is_valid = true ↔
      ∀ r ∈ (validate_spreadsheet cfg t).results, r.status = "valid")
    ∧ (((validate_spreadsheet cfg t).results.filter
          fun r => r.status == "skipped").length ≤
        (validate_spreadsheet cfg t).summary.error_rows)
    ∧ (t.rows ≠ [] →
      (∀ row ∈ t.rows, rowIsFreqSkipped (findFreqCol t.columns) row = true) →
      (validate_spreadsheet cfg t).is_valid = false
      ∧ (validate_spreadsheet cfg t).summary.error_rows = t.rows.length
      ∧ ∀ (sheets : List (String × Table)) (schedules : List Schedule)
          (now : Date) (trig : Bool) (name : String),
          isPeriodicTriggerDue now schedules = .ok trig →
          (name, t) ∈ sheets →
          (runAllSheetsTrace cfg sheets schedules now).getLast? =
            some NotifCall.missingData) := by
  refine ⟨?_, ?_, ?_⟩
  · rw [validate_is_valid_eq, List.all_eq_true]
    constructor
    · intro h r hr
      simpa using h r hr
    · intro h r hr
      simp [h r hr]
  · rw [validate_error_rows_eq, ← List.countP_eq_length_filter,
      ← List.countP_eq_length_filter]
    apply List.countP_mono_left
    intro r _ hp
    have h1 : r.status = "skipped" := by simpa using hp
    simp [h1]
  · intro hne hall
    have hres : ∀ r ∈ (validate_spreadsheet cfg t).results,
        r.status = "skipped" := by
      rw [validate_results_eq]
      exact validateRows_all_skipped cfg _ _ _ _ 0 t.rows hall
    have hlen : (validate_spreadsheet cfg t).results.length = t.rows.length := by
      rw [validate_results_eq]
      exact validateRows_length cfg _ _ _ _ 0 t.rows
    have hresne : (validate_spreadsheet cfg t).results ≠ [] := by
      intro h0
      rw [h0] at hlen
      exact hne (List.length_eq_zero.mp hlen.symm)
    obtain ⟨r0, hr0⟩ := List.exists_mem_of_ne_nil _ hresne
    have hvalid : (validate_spreadsheet cfg t).is_valid = false := by
      cases hiv : (validate_spreadsheet cfg t).is_valid with
      | false => rfl
      | true =>
        rw [validate_is_valid_eq] at hiv
        have h2 := List.all_eq_true.mp hiv r0 hr0
        rw [hres r0 hr0] at h2
        exact absurd h2 (by decide)
    refine ⟨hvalid, ?_, ?_⟩
    · rw [validate_error_rows_eq]
      rw [List.filter_eq_self.mpr fun r hr => by simp [hres r hr]]
      exact hlen
    · intro sheets schedules now trig name hsched hmem
      rw [runAllSheetsTrace_getLast cfg sheets schedules now trig hsched,
        aggAllValid_false_of_mem cfg sheets name t hmem hvalid]
      rfl

theorem C9_skipped_rows_witness :
    (validate_spreadsheet cfgEx tblSkipped).is_valid = false
    ∧ (validate_spreadsheet cfgEx tblSkipped).summary.error_rows =
        tblSkipped.rows.length
    ∧ (runAllSheetsTrace cfgEx [("S1", tblSkipped)] [] dateJul25).getLast? =
        some NotifCall.missingData := by
  have h := (C9_is_valid_iff_all_rows_valid cfgEx tblSkipped).2.2 (by decide)
    (by decide)
  exact ⟨h.1, h.2.1, h.2.2 [("S1", tblSkipped)] [] dateJul25 false "S1" rfl
    (by decide)⟩

/-- Claim C10: validate terminates with a validation_rate of 0 on an empty
table rather than a division error, and on a nonempty table the rate is the
number of valid-status verdicts divided by the row count times 100; the
summary total_rows and the verdict list length both equal the row count. -/
theorem C10_validation_rate (cfg : RuleSet) (t : Table) :
    (t.rows = [] → (validate_spreadsheet cfg t).summary.validation_rate = 0)
    ∧ (t.rows ≠ [] →
      (validate_spreadsheet cfg t).summary.validation_rate =
        (((validate_spreadsheet cfg t).results.filter
            fun r => r.status == "valid").length : ℚ) /
          (t.rows.length : ℚ) * 100)
    ∧ (validate_spreadsheet cfg t).summary.total_rows = t.rows.length
    ∧ (validate_spreadsheet cfg t).results.length = t.rows.length := by
  refine ⟨?_, ?_, rfl, ?_⟩
  · intro h
    simp [validate_spreadsheet, h]
  · intro h
    have hpos : 0 < t.rows.length := List.length_pos.mpr h
    simp [validate_spreadsheet, hpos]
  · rw [validate_results_eq]
    exact validateRows_length cfg _ _ _ _ 0 t.rows

theorem C10_validation_rate_witness :
    (validate_spreadsheet cfgEx tblEmpty).summary.validation_rate = 0 :=
  (C10_validation_rate cfgEx tblEmpty).1 rfl
